import Mathlib

/-!
Verification of the browser-session tool layer of `mcp-web-navigator`.

The development shallowly embeds the relevant code:
* `src/helper.py` — `clean_html_content`, the HTML Simplifier, as a
  transform on parsed markup trees (`Html`);
* `src/mcp_server/mcp_server.py` — the in-page JavaScript of
  `click_by_text` and `get_interactive_elements`, as functions over the
  document-order list of DOM elements (`Elem`), plus the Python-side
  precondition checks of `fill_text`, `click_element`, `click_by_text`,
  and the teardown path of `browser_lifespan`.

Element geometry (`getBoundingClientRect` widths/heights) is modelled
with rationals; JavaScript falsiness of strings is modelled by collapsing
`undefined`/`null`/`""` to the empty string, which the `||` chains in the
source cannot distinguish.
-/

/-! ## HTML Simplifier (`src/helper.py`, `clean_html_content`) -/

/-- Parsed markup node, as produced by the HTML parser: an element with a
(lower-cased) tag name, attributes, and children, or a text node. -/
inductive Html where
  | elem (tag : String) (attrs : List (String × String)) (children : List Html)
  | text (s : String)
deriving Repr

/-- Tags whose entire subtrees `clean_html_content` removes
(`soup(["script", "style", "svg", "meta", "link", "noscript"])` + `decompose`). -/
def bannedTags : List String := ["script", "style", "svg", "meta", "link", "noscript"]

/-- The attribute allow-list of `clean_html_content`
(`allowed_attrs = ['id', 'class', 'name', 'href', 'type', 'placeholder', 'aria-label', 'role']`). -/
def allowedAttrs : List String :=
  ["id", "class", "name", "href", "type", "placeholder", "aria-label", "role"]

mutual
/-- `clean_html_content` as a tree transform: decompose every subtree rooted
at a banned tag, then keep only allow-listed attributes on every element. -/
def cleanNode : Html → Option Html
  | Html.elem tag attrs children =>
      if tag ∈ bannedTags then
        none
      else
        some (Html.elem tag (attrs.filter (fun a => a.1 ∈ allowedAttrs)) (cleanForest children))
  | Html.text s => some (Html.text s)

/-- `clean_html_content` applied to a list of sibling nodes (the parsed soup). -/
def cleanForest : List Html → List Html
  | [] => []
  | n :: rest =>
      match cleanNode n with
      | none => cleanForest rest
      | some n' => n' :: cleanForest rest
end

mutual
/-- Every element in the tree has a non-banned tag and only allow-listed
attribute names. -/
def nodeClean : Html → Bool
  | Html.elem tag attrs children =>
      decide (tag ∉ bannedTags) &&
      attrs.all (fun a => decide (a.1 ∈ allowedAttrs)) &&
      forestClean children
  | Html.text _ => true

/-- `nodeClean` over a list of sibling nodes. -/
def forestClean : List Html → Bool
  | [] => true
  | n :: rest => nodeClean n && forestClean rest
end

mutual
theorem cleanNode_clean : ∀ n : Html, ∀ n', cleanNode n = some n' → nodeClean n' = true
  | Html.elem tag attrs children, n', h => by
      unfold cleanNode at h
      by_cases htag : tag ∈ bannedTags
      · simp [htag] at h
      · simp only [htag, if_neg, ite_false] at h
        cases h
        simp only [nodeClean, Bool.and_eq_true, decide_eq_true_eq]
        refine ⟨⟨htag, ?_⟩, cleanForest_clean children⟩
        rw [List.all_eq_true]
        intro a ha
        have := List.of_mem_filter ha
        simpa using this
  | Html.text s, n', h => by
      unfold cleanNode at h
      cases h
      rfl

theorem cleanForest_clean : ∀ f : List Html, forestClean (cleanForest f) = true
  | [] => rfl
  | n :: rest => by
      unfold cleanForest
      cases hn : cleanNode n with
      | none => exact cleanForest_clean rest
      | some n' =>
          simp only [forestClean, Bool.and_eq_true]
          exact ⟨cleanNode_clean n n' hn, cleanForest_clean rest⟩
end

mutual
theorem cleanNode_of_clean : ∀ n : Html, nodeClean n = true → cleanNode n = some n
  | Html.elem tag attrs children, h => by
      simp only [nodeClean, Bool.and_eq_true, decide_eq_true_eq, List.all_eq_true] at h
      obtain ⟨⟨htag, hattrs⟩, hchildren⟩ := h
      unfold cleanNode
      simp only [htag, if_neg, ite_false]
      congr 1
      congr 1
      · exact List.filter_eq_self.mpr (fun a ha => decide_eq_true (hattrs a ha))
      · exact cleanForest_of_clean children hchildren
  | Html.text s, _ => rfl

theorem cleanForest_of_clean : ∀ f : List Html, forestClean f = true → cleanForest f = f
  | [], _ => rfl
  | n :: rest, h => by
      simp only [forestClean, Bool.and_eq_true] at h
      unfold cleanForest
      rw [cleanNode_of_clean n h.1]
      rw [cleanForest_of_clean rest h.2]
end

/-- **C2.** For all markup inputs, the Simplifier's output contains no
script/style/svg/meta/link/noscript element (those subtrees are removed
whole), and every attribute on every surviving element is one of
id, class, name, href, type, placeholder, aria-label, role. -/
theorem simplifier_output_clean (f : List Html) : forestClean (cleanForest f) = true :=
  cleanForest_clean f

/-- **C3.** The Simplifier is idempotent: simplifying already-simplified
markup yields the same result. -/
theorem simplifier_idempotent (f : List Html) : cleanForest (cleanForest f) = cleanForest f :=
  cleanForest_of_clean (cleanForest f) (cleanForest_clean f)

/-! ## DOM element model

`document.querySelectorAll(query)` returns elements in document order; the
page DOM is modelled as that document-order list.  String-valued DOM
properties that the source only ever tests for JavaScript truthiness
(`el.value` on non-form elements, `getAttribute` results, `el.href`) are
modelled as `String` with `""` standing for both the empty string and
`undefined`/`null`, which the `||` chains and `if (...)` tests in the
source cannot distinguish. -/

/-- A DOM element, restricted to the properties the in-page scripts read. -/
structure Elem where
  /-- `tagName.toLowerCase()`, also the name used by tag selectors. -/
  tag : String
  /-- `el.id` (empty when absent). -/
  idAttr : String
  /-- `el.className`. -/
  className : String
  /-- The `type` attribute (for `input[type="submit"]` / `input[type="button"]`). -/
  typeAttr : String
  /-- The `role` attribute (for `[role="button"]`). -/
  role : String
  /-- Whether the element has an `onclick` attribute (for `[onclick]`). -/
  hasOnclick : Bool
  /-- `el.innerText`. -/
  innerText : String
  /-- `el.value` (empty when undefined). -/
  value : String
  /-- `el.placeholder` (empty when undefined). -/
  placeholder : String
  /-- `el.getAttribute('aria-label')` (empty when null). -/
  ariaLabel : String
  /-- `getBoundingClientRect().width`. -/
  width : ℚ
  /-- `getBoundingClientRect().height`. -/
  height : ℚ
  /-- `getComputedStyle(el).visibility`. -/
  visibility : String
  /-- `getComputedStyle(el).display`. -/
  display : String
  /-- `el.href` — the resolved absolute URL on anchors (empty when absent). -/
  hrefResolved : String
  /-- The raw `href` attribute (empty when null). -/
  hrefAttr : String
deriving DecidableEq, Repr

/-- JavaScript regex-`\s` / `trim` whitespace, restricted to its ASCII part. -/
def isJsWs (c : Char) : Bool :=
  c = ' ' || c = '\t' || c = '\n' || c = '\r' || c = '\x0b' || c = '\x0c'

/-- `String.prototype.trim`: strip leading and trailing whitespace. -/
def jsTrim (s : String) : String :=
  ⟨((s.data.dropWhile isJsWs).reverse.dropWhile isJsWs).reverse⟩

/-- `String.prototype.toLowerCase`, restricted to its ASCII part. -/
def jsToLower (s : String) : String :=
  ⟨s.data.map Char.toLower⟩

/-- Does `needle` occur at the start of `hay`? -/
def listHasPfx : List Char → List Char → Bool
  | [], _ => true
  | _ :: _, [] => false
  | a :: as, b :: bs => a = b && listHasPfx as bs

/-- Scan every suffix of `hay` for `needle` at its head. -/
def strIncludesGo (needle : List Char) : List Char → Bool
  | [] => listHasPfx needle []
  | c :: rest => listHasPfx needle (c :: rest) || strIncludesGo needle rest

/-- `String.prototype.includes`: does `needle` occur inside `hay`? -/
def strIncludes (hay needle : String) : Bool :=
  strIncludesGo needle.data hay.data

/-- `String.prototype.substring(0, n)` (also `.substring(0, 100)` in the source). -/
def jsTake (s : String) (n : Nat) : String := ⟨s.data.take n⟩

/-! ## Text-Based Locator (`click_by_text`, in-page script) -/

/-- The Locator's candidate query,
`'button, a, input[type="submit"], input[type="button"], [role="button"], [onclick]'`.
Attribute values of `type` match ASCII case-insensitively per HTML selector
rules; `role` matches exactly. -/
def isLocatorCandidate (el : Elem) : Bool :=
  el.tag = "button" || el.tag = "a" ||
    (el.tag = "input" && (jsToLower el.typeAttr = "submit" || jsToLower el.typeAttr = "button")) ||
    el.role = "button" || el.hasOnclick

/-- The Locator's visibility filter:
`rect.width > 0 && rect.height > 0 && style.visibility !== 'hidden' && style.display !== 'none'`. -/
def locatorVisible (el : Elem) : Bool :=
  0 < el.width && 0 < el.height && el.visibility ≠ "hidden" && el.display ≠ "none"

/-- The Locator's comparable text:
`(el.innerText || el.value || el.getAttribute('aria-label') || '').trim()`. -/
def comparableText (el : Elem) : String :=
  jsTrim (if el.innerText ≠ "" then el.innerText
          else if el.value ≠ "" then el.value
          else if el.ariaLabel ≠ "" then el.ariaLabel
          else "")

/-- The Locator's match test: exact, case-sensitive equality when
`exactMatch`; otherwise case-insensitive substring containment. -/
def textMatches (text : String) (exactMatch : Bool) (el : Elem) : Bool :=
  if exactMatch then comparableText el = text
  else strIncludes (jsToLower (comparableText el)) (jsToLower text)

/-- The visible candidate list the Locator iterates over, in document order. -/
def locatorVisibleElements (dom : List Elem) : List Elem :=
  (dom.filter isLocatorCandidate).filter locatorVisible

/-- The Locator's search loop: the first visible candidate whose comparable
text matches, in document order. -/
def findTarget (dom : List Elem) (text : String) (exactMatch : Bool) : Option Elem :=
  (locatorVisibleElements dom).find? (textMatches text exactMatch)

/-! ## Tool-level wrappers (`mcp_server.py`) -/

/-- The errors the Python tool layer raises: `RuntimeError("Browser is not
initialized.")`, `ValueError` on empty required arguments, the no-match
`RuntimeError` of `click_by_text`, and propagated engine failures. -/
inductive ToolErr where
  | notInitialized (msg : String)
  | invalidArgument (msg : String)
  | notFound (msg : String)
  | domFailure (msg : String)
deriving DecidableEq, Repr

/-- `click_by_text`: the Python precondition checks followed by the in-page
search-and-click script.  Returns the result (success message or raised
error) together with the list of elements actually clicked. -/
def click_by_text (ready : Bool) (dom : List Elem) (text : String) (exactMatch : Bool) :
    Except ToolErr String × List Elem :=
  if ¬ready then (.error (.notInitialized "Browser is not initialized."), [])
  else if text = "" then (.error (.invalidArgument "Text must be provided."), [])
  else
    match findTarget dom text exactMatch with
    | none => (.error (.notFound ("No element found with text \"" ++ text ++ "\"")), [])
    | some el =>
        let infoText := jsTake (if el.innerText ≠ "" then el.innerText
                                else if el.value ≠ "" then el.value else "") 100
        (.ok ("Clicked " ++ el.tag ++ " with text \"" ++ infoText ++ "\""), [el])

/-- `fill_text`: initialization check, then argument validation, then the
`page.fill` call (whose outcome is the parameter `domFill`).  The boolean
records whether the DOM was accessed. -/
def fill_text (ready : Bool) (selector text : String) (domFill : Except String Unit) :
    Except ToolErr Unit × Bool :=
  if ¬ready then (.error (.notInitialized "Browser is not initialized."), false)
  else if selector = "" || text = "" then
    (.error (.invalidArgument "Selector and text must be provided."), false)
  else
    match domFill with
    | .ok _ => (.ok (), true)
    | .error m => (.error (.domFailure m), true)

/-- `click_element`: initialization check, then argument validation, then the
`page.click` call (whose outcome is the parameter `domClick`). -/
def click_element (ready : Bool) (selector : String) (domClick : Except String Unit) :
    Except ToolErr Unit × Bool :=
  if ¬ready then (.error (.notInitialized "Browser is not initialized."), false)
  else if selector = "" then (.error (.invalidArgument "Selector must be provided."), false)
  else
    match domClick with
    | .ok _ => (.ok (), true)
    | .error m => (.error (.domFailure m), true)

/-! ## Interactive Element Scanner (`get_interactive_elements`, in-page script) -/

/-- The Scanner's candidate query,
`'button, a, input, select, textarea, [role="button"], [onclick]'`. -/
def isScannerCandidate (el : Elem) : Bool :=
  el.tag = "button" || el.tag = "a" || el.tag = "input" || el.tag = "select" ||
    el.tag = "textarea" || el.role = "button" || el.hasOnclick

/-- The Scanner's visibility filter: the element is kept unless
`rect.width < 1 || rect.height < 1 || style.visibility === 'hidden' || style.display === 'none'`. -/
def scannerVisible (el : Elem) : Bool :=
  !(decide (el.width < 1) || decide (el.height < 1) ||
    el.visibility = "hidden" || el.display = "none")

/-- `name.replace(/\s+/g, ' ')`: collapse every maximal run of whitespace
characters to a single space. -/
def collapseWs : List Char → List Char
  | [] => []
  | [c] => if isJsWs c then [' '] else [c]
  | c1 :: c2 :: rest =>
      if isJsWs c1 && isJsWs c2 then collapseWs (c2 :: rest)
      else (if isJsWs c1 then ' ' else c1) :: collapseWs (c2 :: rest)

/-- The Scanner's raw name:
`el.innerText || el.placeholder || el.value || el.getAttribute('aria-label') || ""`. -/
def scanRawName (el : Elem) : String :=
  if el.innerText ≠ "" then el.innerText
  else if el.placeholder ≠ "" then el.placeholder
  else if el.value ≠ "" then el.value
  else if el.ariaLabel ≠ "" then el.ariaLabel
  else ""

/-- The Scanner's derived name:
`name.replace(/\s+/g, ' ').trim().substring(0, 100)`. -/
def scanName (el : Elem) : String :=
  jsTake (jsTrim ⟨collapseWs (scanRawName el).data⟩) 100

/-- `el.className.trim().split(/\s+/)[0]`: the first whitespace-separated
token of the trimmed class string. -/
def firstClassToken (s : String) : String :=
  ⟨(jsTrim s).data.takeWhile (fun c => !isJsWs c)⟩

/-- The Scanner's best-guess CSS selector: `tag#id` when an id exists, else
`tag.firstClassToken` when the class string is non-blank, else the bare tag. -/
def buildSelector (el : Elem) : String :=
  if el.idAttr ≠ "" then el.tag ++ "#" ++ el.idAttr
  else if jsTrim el.className ≠ "" then el.tag ++ "." ++ firstClassToken el.className
  else el.tag

/-- The Scanner's link extraction: the resolved `el.href` for anchors,
else the raw `href` attribute, else null. -/
def extractLink (el : Elem) : Option String :=
  if el.tag = "a" && el.hrefResolved ≠ "" then some el.hrefResolved
  else if el.hrefAttr ≠ "" then some el.hrefAttr
  else none

/-- The Scanner's output record: `{name, selector, link}`. -/
structure ElementDescriptor where
  name : String
  selector : String
  link : Option String
deriving DecidableEq, Repr

/-- The Scanner's per-element body: skip invisible elements, skip elements
whose derived name is empty unless they are `input`/`select`/`textarea`,
otherwise push `{name, selector, link}`. -/
def scanItem (el : Elem) : Option ElementDescriptor :=
  if !scannerVisible el then none
  else if scanName el = "" &&
      !(el.tag = "input" || el.tag = "select" || el.tag = "textarea") then none
  else some ⟨scanName el, buildSelector el, extractLink el⟩

/-- `get_interactive_elements`: run the per-element body over the
document-order candidate list. -/
def get_interactive_elements (dom : List Elem) : List ElementDescriptor :=
  (dom.filter isScannerCandidate).filterMap scanItem

/-! ## Page Handle Lifecycle teardown (`browser_lifespan`) -/

/-- What happened during the `finally:` block of `browser_lifespan`:
which of `browser.close()` / `p.stop()` were invoked, and the block's
outcome. -/
structure TeardownTrace where
  closeCalled : Bool
  stopCalled : Bool
  result : Except String Unit
deriving Repr

/-- The teardown path of `browser_lifespan`:
`await browser.close()` then `await p.stop()`, run sequentially with no
exception handling between them, so a raising `close` skips `stop`. -/
def browser_lifespan_teardown (closeResult stopResult : Except String Unit) : TeardownTrace :=
  match closeResult with
  | .error e => ⟨true, false, .error e⟩
  | .ok _ =>
      match stopResult with
      | .error e => ⟨true, true, .error e⟩
      | .ok _ => ⟨true, true, .ok ()⟩

/-! ## Concrete elements used by witnesses and counterexamples -/

/-- A plain visible button with no text. -/
def elemBase : Elem :=
  { tag := "button", idAttr := "", className := "", typeAttr := "", role := "",
    hasOnclick := false, innerText := "", value := "", placeholder := "", ariaLabel := "",
    width := 10, height := 10, visibility := "visible", display := "block",
    hrefResolved := "", hrefAttr := "" }

/-- A visible button whose text contains — but does not equal — "Submit". -/
def submitFormBtn : Elem := { elemBase with innerText := "Submit Form" }

/-- A visible button whose text is exactly "Submit". -/
def submitBtn : Elem := { elemBase with innerText := "Submit" }

/-- A two-button page: the containing match first, the exact match second. -/
def demoDom : List Elem := [submitFormBtn, submitBtn]

/-! ## Locator theorems -/

/-- **C1.** For every page DOM and non-empty search text, `click_by_text`
selects among the visible candidates exactly as specified: in exact mode the
selected element's comparable text equals the search text case-sensitively;
otherwise it contains it case-insensitively; and in both modes the selected
element is the first match among the document-ordered visible candidates,
and is the one element clicked. -/
theorem click_by_text_selects_first_match
    (dom : List Elem) (text : String) (exactMatch : Bool) (el : Elem)
    (htext : text ≠ "")
    (hfind : findTarget dom text exactMatch = some el) :
    isLocatorCandidate el = true ∧ locatorVisible el = true ∧
    (exactMatch = true → comparableText el = text) ∧
    (exactMatch = false →
      strIncludes (jsToLower (comparableText el)) (jsToLower text) = true) ∧
    (∃ pre post, locatorVisibleElements dom = pre ++ el :: post ∧
      ∀ x ∈ pre, textMatches text exactMatch x = false) ∧
    (click_by_text true dom text exactMatch).2 = [el] := by
  obtain ⟨hp, pre, post, heq, hpre⟩ := List.find?_eq_some.mp hfind
  have hmem : el ∈ locatorVisibleElements dom := by
    rw [heq]; exact List.mem_append_right pre (List.mem_cons_self el post)
  have hvis : locatorVisible el = true :=
    (List.mem_filter.mp hmem).2
  have hcand : isLocatorCandidate el = true :=
    (List.mem_filter.mp (List.mem_filter.mp hmem).1).2
  refine ⟨hcand, hvis, ?_, ?_, ⟨pre, post, heq, ?_⟩, ?_⟩
  · intro he
    rw [he] at hp
    simpa [textMatches] using hp
  · intro he
    rw [he] at hp
    simpa [textMatches] using hp
  · intro x hx
    simpa using hpre x hx
  · simp [click_by_text, htext, hfind]

/-- Witness for `click_by_text_selects_first_match`: on `demoDom` with
exact-match text "Submit", the exact-match button is selected and clicked,
not the "Submit Form" one. -/
theorem click_by_text_selects_first_match_witness :
    isLocatorCandidate submitBtn = true ∧ locatorVisible submitBtn = true ∧
    (true = true → comparableText submitBtn = "Submit") ∧
    (true = false →
      strIncludes (jsToLower (comparableText submitBtn)) (jsToLower "Submit") = true) ∧
    (∃ pre post, locatorVisibleElements demoDom = pre ++ submitBtn :: post ∧
      ∀ x ∈ pre, textMatches "Submit" true x = false) ∧
    (click_by_text true demoDom "Submit" true).2 = [submitBtn] :=
  click_by_text_selects_first_match demoDom "Submit" true submitBtn
    (by decide) (by decide)

/-- A needle occurs at the start of itself followed by anything. -/
theorem listHasPfx_self_append : ∀ (t rest : List Char), listHasPfx t (t ++ rest) = true
  | [], _ => rfl
  | c :: t, rest => by
      simp only [List.cons_append, listHasPfx]
      simp [listHasPfx_self_append t rest]

/-- `strIncludesGo` succeeds when the needle sits at the head of the haystack. -/
theorem strIncludesGo_of_pfx (t hay : List Char) (h : listHasPfx t hay = true) :
    strIncludesGo t hay = true := by
  cases hay with
  | nil => simpa [strIncludesGo] using h
  | cons c rest => simp [strIncludesGo, h]

/-- `strIncludesGo` is monotone under extending the haystack on the left. -/
theorem strIncludesGo_cons (c : Char) (t rest : List Char)
    (h : strIncludesGo t rest = true) : strIncludesGo t (c :: rest) = true := by
  simp [strIncludesGo, h]

/-- A needle occurs inside any haystack that embeds it:
`strIncludesGo t (pre ++ t ++ suf) = true`. -/
theorem strIncludesGo_append : ∀ (pre t suf : List Char),
    strIncludesGo t (pre ++ t ++ suf) = true
  | [], t, suf => by
      simpa using strIncludesGo_of_pfx t (t ++ suf) (listHasPfx_self_append t suf)
  | c :: pre, t, suf => by
      simpa using strIncludesGo_cons c t (pre ++ t ++ suf) (strIncludesGo_append pre t suf)

/-- **C6.** When a non-empty search text matches no visible candidate,
`click_by_text` raises the not-found error whose message carries the search
text, and clicks nothing; and whenever `click_by_text` returns success it has
clicked exactly one element. -/
theorem click_by_text_no_match_raises
    (dom : List Elem) (text : String) (exactMatch : Bool)
    (htext : text ≠ "")
    (hnomatch : ∀ el ∈ dom, isLocatorCandidate el = true → locatorVisible el = true →
      textMatches text exactMatch el = false) :
    (click_by_text true dom text exactMatch).1 =
      Except.error (ToolErr.notFound ("No element found with text \"" ++ text ++ "\"")) ∧
    strIncludes ("No element found with text \"" ++ text ++ "\"") text = true ∧
    (click_by_text true dom text exactMatch).2 = [] ∧
    (∀ (dom' : List Elem) (t' : String) (e' : Bool) (msg : String),
      (click_by_text true dom' t' e').1 = Except.ok msg →
      ∃ el, (click_by_text true dom' t' e').2 = [el]) := by
  have hnone : findTarget dom text exactMatch = none := by
    apply List.find?_eq_none.mpr
    intro x hx
    have hvis : locatorVisible x = true := (List.mem_filter.mp hx).2
    have hx' := (List.mem_filter.mp hx).1
    have hcand : isLocatorCandidate x = true := (List.mem_filter.mp hx').2
    have hmem : x ∈ dom := (List.mem_filter.mp hx').1
    simp [hnomatch x hmem hcand hvis]
  refine ⟨?_, ?_, ?_, ?_⟩
  · simp [click_by_text, htext, hnone]
  · show strIncludesGo text.data ("No element found with text \"" ++ text ++ "\"").data = true
    rw [String.data_append, String.data_append]
    exact strIncludesGo_append _ _ _
  · simp [click_by_text, htext, hnone]
  · intro dom' t' e' msg hok
    by_cases ht' : t' = ""
    · simp [click_by_text, ht'] at hok
    · cases hft : findTarget dom' t' e' with
      | none => simp [click_by_text, ht', hft] at hok
      | some el =>
          exact ⟨el, by simp [click_by_text, ht', hft]⟩

/-- Witness for `click_by_text_no_match_raises`: searching `demoDom` for
"nonexistent-xyz" raises the not-found error and clicks nothing. -/
theorem click_by_text_no_match_raises_witness :
    (click_by_text true demoDom "nonexistent-xyz" false).1 =
      Except.error (ToolErr.notFound ("No element found with text \"" ++ "nonexistent-xyz" ++ "\"")) ∧
    strIncludes ("No element found with text \"" ++ "nonexistent-xyz" ++ "\"") "nonexistent-xyz" = true ∧
    (click_by_text true demoDom "nonexistent-xyz" false).2 = [] ∧
    (∀ (dom' : List Elem) (t' : String) (e' : Bool) (msg : String),
      (click_by_text true dom' t' e').1 = Except.ok msg →
      ∃ el, (click_by_text true dom' t' e').2 = [el]) :=
  click_by_text_no_match_raises demoDom "nonexistent-xyz" false
    (by decide) (by decide)

/-! ## Candidate-set comparison (Scanner vs Locator) -/

/-- A visible `<select>` element with no id/class/role/onclick. -/
def selectPlainElem : Elem := { elemBase with tag := "select" }

/-- **C4, counterexample.** The candidate sets are not the same: a plain
`<select>` element is a Scanner candidate (query contains `select`) but not
a Locator candidate (query has only `button, a, input[type="submit"],
input[type="button"], [role="button"], [onclick]`). -/
theorem candidate_sets_counterexample :
    isScannerCandidate selectPlainElem = true ∧
    isLocatorCandidate selectPlainElem = false := by decide

/-- **C4, amended.** Every Locator candidate is a Scanner candidate (the
Locator's query is a strict subset of the Scanner's: it keeps `button`, `a`,
`[role="button"]`, `[onclick]` but narrows `input` to `type` submit/button
and drops `select`/`textarea`). -/
theorem locator_candidates_subset_scanner (el : Elem)
    (h : isLocatorCandidate el = true) : isScannerCandidate el = true := by
  simp only [isLocatorCandidate, Bool.or_eq_true, Bool.and_eq_true,
    decide_eq_true_eq] at h
  simp only [isScannerCandidate, Bool.or_eq_true, decide_eq_true_eq]
  rcases h with ((((hb | ha) | ⟨hi, _⟩) | hr) | ho)
  · exact Or.inl (Or.inl (Or.inl (Or.inl (Or.inl (Or.inl hb)))))
  · exact Or.inl (Or.inl (Or.inl (Or.inl (Or.inl (Or.inr ha)))))
  · exact Or.inl (Or.inl (Or.inl (Or.inl (Or.inr hi))))
  · exact Or.inl (Or.inr hr)
  · exact Or.inr ho

/-- Witness for `locator_candidates_subset_scanner` at the concrete button
`elemBase`. -/
theorem locator_candidates_subset_scanner_witness :
    isScannerCandidate elemBase = true :=
  locator_candidates_subset_scanner elemBase (by decide)

/-! ## Visibility-filter comparison -/

/-- The VisibilityPredicate exactly as the spec words it: rendered bounding
box with positive width and positive height, computed visibility not
`hidden`, computed display not `none`. -/
def specVisiblePredicate (el : Elem) : Prop :=
  0 < el.width ∧ 0 < el.height ∧ el.visibility ≠ "hidden" ∧ el.display ≠ "none"

/-- A visible element half a pixel wide (`width = 1/2`, written with an
explicit numerator/denominator so comparisons evaluate by `decide`). -/
def halfPixelElem : Elem := { elemBase with width := ⟨1, 2, by norm_num, by norm_num⟩ }

/-- **C5, counterexample.** The two visibility filters do not accept the same
elements: a half-pixel-wide element (`width = 1/2`) satisfies the spec's
VisibilityPredicate and the Locator's filter (`width > 0`), but the Scanner
rejects it (`width < 1`). -/
theorem visibility_filters_counterexample :
    halfPixelElem.width = 1/2 ∧
    specVisiblePredicate halfPixelElem ∧
    locatorVisible halfPixelElem = true ∧
    scannerVisible halfPixelElem = false := by
  refine ⟨?_, ⟨by decide, by decide, by decide, by decide⟩, by decide, by decide⟩
  show (⟨1, 2, by norm_num, by norm_num⟩ : ℚ) = 1/2
  rw [Rat.mk'_eq_divInt]
  norm_num [Rat.divInt_eq_div]

/-- **C5, amended.** The Locator's filter admits exactly the elements
satisfying the spec's VisibilityPredicate, while the Scanner requires width
and height at least 1 (plus the same style conditions); every
Scanner-visible element is Locator-visible, but not conversely. -/
theorem visibility_filters_compared (el : Elem) :
    (locatorVisible el = true ↔ specVisiblePredicate el) ∧
    (scannerVisible el = true ↔
      (1 ≤ el.width ∧ 1 ≤ el.height ∧ el.visibility ≠ "hidden" ∧ el.display ≠ "none")) ∧
    (scannerVisible el = true → locatorVisible el = true) := by
  refine ⟨?_, ?_, ?_⟩
  · simp [locatorVisible, specVisiblePredicate, and_assoc]
  · simp [scannerVisible, not_lt, and_assoc]
  · intro h
    simp only [scannerVisible, Bool.not_eq_true', Bool.or_eq_false_iff,
      decide_eq_false_iff_not, not_lt] at h
    obtain ⟨⟨⟨hw, hh⟩, hv⟩, hd⟩ := h
    simp only [locatorVisible, Bool.and_eq_true, decide_eq_true_eq, ne_eq]
    exact ⟨⟨⟨lt_of_lt_of_le one_pos hw, lt_of_lt_of_le one_pos hh⟩, hv⟩, hd⟩

/-- Witness for `visibility_filters_compared` at the concrete button
`elemBase`, discharging the Scanner-to-Locator implication there. -/
theorem visibility_filters_compared_witness :
    (locatorVisible elemBase = true ↔ specVisiblePredicate elemBase) ∧
    locatorVisible elemBase = true :=
  ⟨(visibility_filters_compared elemBase).1,
   (visibility_filters_compared elemBase).2.2 (by decide)⟩

/-! ## Scanner name invariants -/

/-- No two consecutive characters of the list are both whitespace. -/
def noWsPair (l : List Char) : Prop :=
  List.Chain' (fun a b => ¬(isJsWs a = true ∧ isJsWs b = true)) l

/-- `collapseWs` starting at a non-whitespace character keeps it in front. -/
theorem collapseWs_cons_of_not_ws (c : Char) (rest : List Char)
    (hc : ¬ isJsWs c = true) : ∃ t, collapseWs (c :: rest) = c :: t := by
  cases rest with
  | nil => exact ⟨[], by simp [collapseWs, hc]⟩
  | cons c2 r =>
      refine ⟨collapseWs (c2 :: r), ?_⟩
      have : (isJsWs c && isJsWs c2) = false := by
        simp [Bool.eq_false_iff.mpr hc]
      simp [collapseWs, this, hc]

/-- The output of `collapseWs` never has two consecutive whitespace
characters: every maximal whitespace run became a single space followed by a
non-whitespace character (or the end). -/
theorem noWsPair_collapseWs : ∀ l : List Char, noWsPair (collapseWs l) := by
  intro l
  induction l using collapseWs.induct
  case case1 => simp [collapseWs, noWsPair]
  case case2 c hc => simp [collapseWs, hc, noWsPair]
  case case3 c hc => simp [collapseWs, hc, noWsPair]
  case case4 c1 c2 rest hb ih =>
      simpa [collapseWs, hb, noWsPair] using ih
  case case5 c1 c2 rest hb ih =>
      have hstep : collapseWs (c1 :: c2 :: rest) =
          (if isJsWs c1 then ' ' else c1) :: collapseWs (c2 :: rest) := by
        simp [collapseWs, hb]
      rw [noWsPair, hstep]
      apply List.chain'_cons'.mpr
      refine ⟨?_, ih⟩
      intro y hy
      by_cases hc1 : isJsWs c1 = true
      · have hc2 : ¬ isJsWs c2 = true := by
          intro hc2
          exact hb (by simp [hc1, hc2])
        obtain ⟨t, ht⟩ := collapseWs_cons_of_not_ws c2 rest hc2
        rw [ht] at hy
        simp only [List.head?_cons, Option.mem_def, Option.some.injEq] at hy
        subst hy
        intro hcontra
        exact hc2 hcontra.2
      · simp only [hc1, if_neg, ite_false]
        intro hcontra
        exact hc1 hcontra.1

/-- `noWsPair` survives dropping a prefix. -/
theorem noWsPair_dropWhile (p : Char → Bool) (l : List Char) (h : noWsPair l) :
    noWsPair (l.dropWhile p) := by
  have hsplit : l.takeWhile p ++ l.dropWhile p = l :=
    List.takeWhile_append_dropWhile p l
  rw [noWsPair, ← hsplit] at h
  exact (List.chain'_append.mp h).2.1

/-- `noWsPair` survives list reversal (its pair relation is symmetric). -/
theorem noWsPair_reverse (l : List Char) (h : noWsPair l) : noWsPair l.reverse := by
  rw [noWsPair, List.chain'_reverse]
  exact List.Chain'.imp (fun a b hab hc => hab ⟨hc.2, hc.1⟩) h

/-- `noWsPair` survives truncation. -/
theorem noWsPair_take (n : Nat) (l : List Char) (h : noWsPair l) :
    noWsPair (l.take n) := by
  rw [noWsPair, ← List.take_append_drop n l] at h
  exact (List.chain'_append.mp h).1

/-- The Scanner's derived name has length at most 100 and no two consecutive
whitespace characters. -/
theorem scanName_invariants (el : Elem) :
    (scanName el).length ≤ 100 ∧ noWsPair (scanName el).data := by
  constructor
  · show ((jsTrim ⟨collapseWs (scanRawName el).data⟩).data.take 100).length ≤ 100
    rw [List.length_take]
    exact Nat.min_le_left _ _
  · show noWsPair ((jsTrim ⟨collapseWs (scanRawName el).data⟩).data.take 100)
    apply noWsPair_take
    show noWsPair
      (((collapseWs (scanRawName el).data |>.dropWhile isJsWs).reverse.dropWhile isJsWs).reverse)
    apply noWsPair_reverse
    apply noWsPair_dropWhile
    apply noWsPair_reverse
    apply noWsPair_dropWhile
    exact noWsPair_collapseWs _

/-- **C7.** Every Scanner descriptor's name has length at most 100 and no
two consecutive whitespace characters; and a visible candidate whose derived
name is empty is dropped unless its tag is `input`, `select`, or `textarea`,
while those three tags are kept even with an empty name. -/
theorem scanner_descriptor_invariants (dom : List Elem) (d : ElementDescriptor)
    (hd : d ∈ get_interactive_elements dom) :
    d.name.length ≤ 100 ∧ noWsPair d.name.data ∧
    (∀ el, scannerVisible el = true → scanName el = "" →
      el.tag ≠ "input" → el.tag ≠ "select" → el.tag ≠ "textarea" →
      scanItem el = none) ∧
    (∀ el, scannerVisible el = true →
      (el.tag = "input" ∨ el.tag = "select" ∨ el.tag = "textarea") →
      scanItem el = some ⟨scanName el, buildSelector el, extractLink el⟩) := by
  obtain ⟨el, _, hel⟩ := List.mem_filterMap.mp hd
  have hname : d.name = scanName el := by
    unfold scanItem at hel
    split at hel
    · exact absurd hel (by simp)
    · split at hel
      · exact absurd hel (by simp)
      · cases hel
        rfl
  refine ⟨?_, ?_, ?_, ?_⟩
  · rw [hname]; exact (scanName_invariants el).1
  · rw [hname]; exact (scanName_invariants el).2
  · intro e hvis hempty h1 h2 h3
    have htags : (e.tag = "input" || e.tag = "select" || e.tag = "textarea") = false := by
      simp [h1, h2, h3]
    simp [scanItem, hvis, hempty, htags]
  · intro e hvis hor
    have htags : (e.tag = "input" || e.tag = "select" || e.tag = "textarea") = true := by
      rcases hor with h | h | h <;> simp [h]
    simp [scanItem, hvis, htags]

/-- Witness for `scanner_descriptor_invariants` at the descriptor that
`demoDom`'s exact-match button produces. -/
theorem scanner_descriptor_invariants_witness :
    (ElementDescriptor.mk "Submit" "button" none).name.length ≤ 100 ∧
    noWsPair (ElementDescriptor.mk "Submit" "button" none).name.data ∧
    (∀ el, scannerVisible el = true → scanName el = "" →
      el.tag ≠ "input" → el.tag ≠ "select" → el.tag ≠ "textarea" →
      scanItem el = none) ∧
    (∀ el, scannerVisible el = true →
      (el.tag = "input" ∨ el.tag = "select" ∨ el.tag = "textarea") →
      scanItem el = some ⟨scanName el, buildSelector el, extractLink el⟩) :=
  scanner_descriptor_invariants demoDom ⟨"Submit", "button", none⟩ (by decide)

/-! ## Direct-action primitive preconditions -/

/-- **C8.** With the page initialized, `fill_text` raises `InvalidArgument`
(`ValueError`) whenever the selector or the text is empty, without touching
the DOM; and with both non-empty it never raises `InvalidArgument`. -/
theorem fill_text_argument_validation (selector text : String)
    (domFill : Except String Unit) :
    ((selector = "" ∨ text = "") →
      fill_text true selector text domFill =
        (Except.error (ToolErr.invalidArgument "Selector and text must be provided."), false)) ∧
    (selector ≠ "" → text ≠ "" →
      ∀ m, (fill_text true selector text domFill).1 ≠
        Except.error (ToolErr.invalidArgument m)) := by
  constructor
  · intro hempty
    have : (selector = "" || text = "") = true := by
      rcases hempty with h | h <;> simp [h]
    simp [fill_text, this]
  · intro hs ht m
    have : (selector = "" || text = "") = false := by simp [hs, ht]
    cases domFill with
    | ok u => simp [fill_text, this]
    | error e => simp [fill_text, this]

/-- Witness for `fill_text_argument_validation`: `fill_text("", "hello")`
raises `InvalidArgument` with no DOM access, and `fill_text("#box", "hi")`
does not raise `InvalidArgument`. -/
theorem fill_text_argument_validation_witness :
    fill_text true "" "hello" (Except.ok ()) =
      (Except.error (ToolErr.invalidArgument "Selector and text must be provided."), false) ∧
    (fill_text true "#box" "hi" (Except.ok ())).1 ≠
      Except.error (ToolErr.invalidArgument "Selector and text must be provided.") :=
  ⟨(fill_text_argument_validation "" "hello" (Except.ok ())).1 (Or.inl rfl),
   (fill_text_argument_validation "#box" "hi" (Except.ok ())).2
     (by decide) (by decide) _⟩

/-! ## Teardown -/

/-- **C9, counterexample.** In the teardown path, a failure of
`browser.close()` does prevent releasing the playwright launch resource:
with `close` raising, `p.stop()` is never invoked. -/
theorem teardown_counterexample :
    (browser_lifespan_teardown (Except.error "close failed") (Except.ok ())).stopCalled
      = false := rfl

/-- **C9, amended.** `browser.close()` is always invoked during teardown, but
`p.stop()` is invoked exactly when `browser.close()` raised no error: a close
failure propagates out of the `finally:` block and skips the release of the
playwright launch resource. -/
theorem teardown_stop_iff_close_ok (closeResult stopResult : Except String Unit) :
    (browser_lifespan_teardown closeResult stopResult).closeCalled = true ∧
    ((browser_lifespan_teardown closeResult stopResult).stopCalled = true ↔
      closeResult = Except.ok ()) := by
  cases closeResult with
  | error e => simp [browser_lifespan_teardown]
  | ok u =>
      cases stopResult with
      | error e2 => simp [browser_lifespan_teardown]
      | ok u2 => simp [browser_lifespan_teardown]

/-! ## Check ordering -/

/-- **C10.** In `click_by_text`, `fill_text` and `click_element` the
initialization check precedes argument validation: invoked with an empty
required argument while the page handle is uninitialized, each raises the
initialization error, not `InvalidArgument`. -/
theorem init_check_precedes_arg_validation (dom : List Elem) (exactMatch : Bool)
    (domFill domClick : Except String Unit) :
    (click_by_text false dom "" exactMatch).1 =
      Except.error (ToolErr.notInitialized "Browser is not initialized.") ∧
    (fill_text false "" "" domFill).1 =
      Except.error (ToolErr.notInitialized "Browser is not initialized.") ∧
    (click_element false "" domClick).1 =
      Except.error (ToolErr.notInitialized "Browser is not initialized.") := by
  refine ⟨?_, ?_, ?_⟩ <;> simp [click_by_text, fill_text, click_element]
